import Mathlib

/-!
Shallow embedding of the Odoo Raycast companion's RPC client core.

The embedded code is the shared service class `OdooService`
(`src/services/odoo.ts`: `authenticate`, `execute`, `searchRead`,
`searchByName`, `getAll`, `invalidateAuth`) and the debounced search
effect of the incremental-search controller (`src/search-projects.tsx`).

Modelling choices:
* JavaScript values flowing through JSON-RPC bodies are modelled by the
  inductive `JsonVal`; JS truthiness (`if (x)`, `a || b`) is made explicit
  via `JsonVal.truthy`, `jsOrNull`, `jsNumOr` and `errMsg`.
* The network is an oracle: a `World` carries the list of pending fetch
  outcomes (consumed one per `fetch` call, in program order), the stream of
  values `Math.floor(Math.random() * 1000000)` will yield (consumed one per
  request body built), the log of requests issued so far, and the log of
  toasts shown so far.  The service functions are written in explicit
  state-passing style over `SvcState` (the `uid` cache field) and `World`.
* A thrown JS error is `Option String`: `some m` is an `Error` with message
  `m`, `none` is a thrown non-`Error` value (the catch sites distinguish
  them with `error instanceof Error`).
-/

/-- A JSON-ish JavaScript value, as occurs in request/response bodies. -/
inductive JsonVal where
  | jnull : JsonVal
  | jbool : Bool → JsonVal
  | jnum : Int → JsonVal
  | jstr : String → JsonVal
  | jarr : List JsonVal → JsonVal
deriving Repr

/-- JS truthiness of a value (`null`, `false`, `0`, `""` are falsy). -/
def JsonVal.truthy : JsonVal → Bool
  | .jnull => false
  | .jbool b => b
  | .jnum n => n != 0
  | .jstr s => s != ""
  | .jarr _ => true

/-- `x || null` on an optional JS value (`none` is `undefined`/`null`). -/
def jsOrNull (x : Option JsonVal) : Option JsonVal :=
  match x with
  | some v => if v.truthy then some v else none
  | none => none

/-- `x || d` on an optional JS number (`0` is falsy, `undefined` is falsy). -/
def jsNumOr (x : Option Int) (d : Int) : Int :=
  match x with
  | some n => if n = 0 then d else n
  | none => d

/-- The preferences record: base URL, API key, database, user login
(`Preferences` in `types.ts`). -/
structure Preferences where
  odooUrl : String
  apiKey : String
  database : String
  userLogin : String

/-- `error.data` of a JSON-RPC error envelope: `{name, message}`. -/
structure OdooErrData where
  name : String
  message : String

/-- The `error` field of an `OdooResponse`:
`{message: string, data?: {name, message}}`. -/
structure OdooErr where
  message : String
  data : Option OdooErrData

/-- `data.error.data?.message || data.error.message` (JS `||`: an empty
`data.message` string is falsy and falls back to the top-level message). -/
def errMsg (e : OdooErr) : String :=
  match e.data with
  | some d => if d.message = "" then e.message else d.message
  | none => e.message

/-- A decoded response body `OdooResponse<T>`: `{result?: T, error?: ...}`. -/
structure OdooResp where
  result : Option JsonVal
  error : Option OdooErr

/-- The outcome the environment assigns to one `fetch` call: either the
promise resolves to a response with an `ok` flag, a `status` and a decoded
JSON body, or the promise rejects with a thrown value. -/
inductive FetchOutcome where
  | response : Bool → Nat → OdooResp → FetchOutcome
  | reject : Option String → FetchOutcome

/-- The keyword-options mapping passed to `execute_kw`
(`OdooSearchOptions`: a field projection, an optional limit, and an
optional `domain` key). -/
structure Kwargs where
  fields : List String
  limit : Option Int
  domain : Option JsonVal

/-- The `params.args` array of a JSON-RPC envelope: either the login
triple or the seven `execute_kw` arguments. -/
inductive RpcArgs where
  | loginArgs : String → String → String → RpcArgs
  | executeArgs : String → JsonVal → String → String → String →
      List JsonVal → Kwargs → RpcArgs

/-- A JSON-RPC request body
`{jsonrpc, method, params: {service, method, args}, id}`. -/
structure RpcRequest where
  jsonrpc : String
  outerMethod : String
  service : String
  innerMethod : String
  args : RpcArgs
  id : Nat

/-- The login request body built in `authenticate`. -/
def authBody (p : Preferences) (rid : Nat) : RpcRequest :=
  { jsonrpc := "2.0", outerMethod := "call", service := "common",
    innerMethod := "login",
    args := .loginArgs p.database p.userLogin p.apiKey, id := rid }

/-- The generic request body built in `execute`. -/
def executeBody (p : Preferences) (uid : JsonVal) (model method : String)
    (args : List JsonVal) (kwargs : Kwargs) (rid : Nat) : RpcRequest :=
  { jsonrpc := "2.0", outerMethod := "call", service := "object",
    innerMethod := "execute_kw",
    args := .executeArgs p.database uid p.apiKey model method args kwargs,
    id := rid }

/-- Whether a request is a login call (`service: "common", method: "login"`). -/
def isLoginCall (r : RpcRequest) : Bool :=
  r.service == "common" && r.innerMethod == "login"

/-- Whether a request is an `execute_kw` call. -/
def isExecuteKwCall (r : RpcRequest) : Bool :=
  r.service == "object" && r.innerMethod == "execute_kw"

/-- A failure toast shown to the user via `showToast`. -/
structure ToastMsg where
  title : String
  message : String

/-- The environment and observation log of a run: pending fetch outcomes,
pending random draws, requests issued so far, toasts shown so far. -/
structure World where
  fetches : List FetchOutcome
  rands : List Nat
  sent : List RpcRequest
  toasts : List ToastMsg

/-- The mutable state of an `OdooService` instance: the cached
`uid: number | null` field (`none` is `null`). -/
structure SvcState where
  uid : Option JsonVal

/-- JS truthiness of the `uid` field (`if (this.uid)`): `null` is falsy,
otherwise the value's own truthiness (so a cached `0` would be falsy). -/
def uidTruthy : Option JsonVal → Bool
  | none => false
  | some v => v.truthy

/-- Consume the next random draw (`Math.floor(Math.random() * 1000000)`). -/
def takeRand (w : World) : Nat × World :=
  match w.rands with
  | [] => (0, { w with rands := [] })
  | n :: rest => (n, { w with rands := rest })

/-- Record a request as issued (the `fetch(apiUrl, {body: ...})` call). -/
def send (w : World) (r : RpcRequest) : World :=
  { w with sent := w.sent ++ [r] }

/-- Consume the next fetch outcome from the environment. -/
def takeFetch (w : World) : FetchOutcome × World :=
  match w.fetches with
  | [] => (.reject none, { w with fetches := [] })
  | o :: rest => (o, { w with fetches := rest })

/-- Record a failure toast (`showToast({style: Failure, title, message})`). -/
def addToast (w : World) (t : ToastMsg) : World :=
  { w with toasts := w.toasts ++ [t] }

/-- The `HTTP error! status: ${status}` message. -/
def httpErrorMsg (status : Nat) : String :=
  "HTTP error! status: " ++ toString status

/-- `OdooService.authenticate`: return the cached `uid` if truthy;
otherwise issue a login call, cache `data.result || null` on success, and
on any thrown failure show an "Authentication Error" toast and return
`null` leaving the cache untouched. -/
def authenticate (p : Preferences) (st : SvcState) (w : World) :
    Option JsonVal × SvcState × World :=
  if uidTruthy st.uid then
    (st.uid, st, w)
  else
    let (rid, w1) := takeRand w
    let (o, w2) := takeFetch (send w1 (authBody p rid))
    match o with
    | .reject m =>
        (none, st,
          addToast w2 ⟨"Authentication Error",
            m.getD "Failed to authenticate with Odoo"⟩)
    | .response ok status body =>
        if ok then
          match body.error with
          | some e =>
              (none, st, addToast w2 ⟨"Authentication Error", errMsg e⟩)
          | none =>
              let newUid := jsOrNull body.result
              (newUid, { st with uid := newUid }, w2)
        else
          (none, st,
            addToast w2 ⟨"Authentication Error", httpErrorMsg status⟩)

/-- `OdooService.execute`: authenticate (returning `null` if that yields a
falsy uid), issue the `execute_kw` call, throw on a non-ok HTTP status or
an error envelope, and otherwise return `data.result || null`.  The catch
block logs and rethrows, so failures propagate to the caller. -/
def execute (p : Preferences) (model method : String) (args : List JsonVal)
    (kwargs : Kwargs) (st : SvcState) (w : World) :
    Except (Option String) (Option JsonVal) × SvcState × World :=
  let (uid, st1, w1) := authenticate p st w
  match uid with
  | none => (.ok none, st1, w1)
  | some u =>
    if u.truthy then
      let (rid, w2) := takeRand w1
      let (o, w3) :=
        takeFetch (send w2 (executeBody p u model method args kwargs rid))
      match o with
      | .reject m => (.error m, st1, w3)
      | .response ok status body =>
          if ok then
            match body.error with
            | some e => (.error (some (errMsg e)), st1, w3)
            | none => (.ok (jsOrNull body.result), st1, w3)
          else
            (.error (some (httpErrorMsg status)), st1, w3)
    else
      (.ok none, st1, w1)

/-- `OdooService.searchRead`: delegate to
`execute(model, "search_read", [domain], options)` and return
`result || []`; on any thrown failure show a "Search Error" toast and
return the empty list. -/
def searchRead (p : Preferences) (model : String) (domain : JsonVal)
    (options : Kwargs) (st : SvcState) (w : World) :
    JsonVal × SvcState × World :=
  let (r, st1, w1) := execute p model "search_read" [domain] options st w
  match r with
  | .ok v =>
      (match v with
        | some x => if x.truthy then x else .jarr []
        | none => .jarr [], st1, w1)
  | .error m =>
      (.jarr [], st1,
        addToast w1 ⟨"Search Error", m.getD ("Failed to search " ++ model)⟩)

/-- The domain `["|", ["name", "ilike", query], ["display_name", "ilike", query]]`
built by `searchByName`. -/
def searchDomain (query : String) : JsonVal :=
  .jarr [.jstr "|",
    .jarr [.jstr "name", .jstr "ilike", .jstr query],
    .jarr [.jstr "display_name", .jstr "ilike", .jstr query]]

/-- The caller-facing options of `searchByName`/`getAll`
(`Omit<OdooSearchOptions, "domain">`). -/
structure SearchOptions where
  fields : List String
  limit : Option Int

/-- `OdooService.searchByName`: build the name/display_name `ilike`
domain and call `searchRead(model, domain, { ...options, domain })` —
note the domain is spread into the options mapping as well as passed
positionally. -/
def searchByName (p : Preferences) (model query : String)
    (options : SearchOptions) (st : SvcState) (w : World) :
    JsonVal × SvcState × World :=
  let domain := searchDomain query
  searchRead p model domain
    ⟨options.fields, options.limit, some domain⟩ st w

/-- `OdooService.getAll`: call `searchRead(model, [],
{ ...options, limit: options.limit || 100 })`. -/
def getAll (p : Preferences) (model : String) (options : SearchOptions)
    (st : SvcState) (w : World) : JsonVal × SvcState × World :=
  let searchOptions : Kwargs :=
    ⟨options.fields, some (jsNumOr options.limit 100), none⟩
  searchRead p model (.jarr []) searchOptions st w

/-- `OdooService.invalidateAuth`: clear the cached uid. -/
def invalidateAuth (st : SvcState) : SvcState :=
  { st with uid := none }

/-- Number of login calls in a request log. -/
def loginCount (l : List RpcRequest) : Nat :=
  (l.filter isLoginCall).length

/-- Number of `execute_kw` calls in a request log. -/
def execKwCount (l : List RpcRequest) : Nat :=
  (l.filter isExecuteKwCall).length

/-! ## The incremental-search controller (`search-projects.tsx`)

The debounced search effect re-runs on every change of `searchText`: its
cleanup clears the pending 300 ms timer of the previous run, and a new
timer is started.  When a timer fires it inspects the text it captured. -/

/-- A query dispatched by the controller: a `searchByName`-backed search
(`searchProjects(searchText)`) or the `getAll`-backed full listing
(`getAllProjects()`). -/
inductive Dispatch where
  | searchQ : String → Dispatch
  | listAllQ : Dispatch
deriving DecidableEq

/-- What the debounce timer's callback dispatches for the captured search
text: `searchText.length >= 2` dispatches a search, `searchText.length
=== 0` dispatches the full listing, otherwise nothing. -/
def timerFire (searchText : String) : Option Dispatch :=
  if searchText.length ≥ 2 then some (.searchQ searchText)
  else if searchText.length = 0 then some .listAllQ
  else none

/-- A text-change event: its arrival time and the new text. -/
structure KeyEvent where
  time : Nat
  text : String

/-- Each event starts a timer due at `time + 300`; the next event's effect
cleanup cancels it unless it has already fired (the next event arrives
strictly after the due time).  `firedDispatches` collects the dispatches
of the timers that fire, in order. -/
def firedDispatches : List KeyEvent → List Dispatch
  | [] => []
  | [e] => (timerFire e.text).toList
  | e :: e' :: rest =>
      (if e.time + 300 < e'.time then (timerFire e.text).toList else []) ++
        firedDispatches (e' :: rest)

/-- Event `b` arrives within the 300-unit debounce window opened by `a`. -/
def withinDebounce (a b : KeyEvent) : Prop :=
  b.time ≤ a.time + 300

/-- The model string a request targets, if it is an `execute_kw` call. -/
def reqModel (r : RpcRequest) : Option String :=
  match r.args with
  | .executeArgs _ _ _ model _ _ _ => some model
  | .loginArgs _ _ _ => none

/-! ## Helper lemmas -/

theorem authenticate_cached (p : Preferences) (st : SvcState) (w : World)
    (h : uidTruthy st.uid = true) :
    authenticate p st w = (st.uid, st, w) := by
  unfold authenticate
  rw [if_pos h]

theorem loginCount_append (l : List RpcRequest) (r : RpcRequest) :
    loginCount (l ++ [r]) =
      loginCount l + (if isLoginCall r then 1 else 0) := by
  simp only [loginCount, List.filter_append]
  cases h : isLoginCall r <;> simp [h]

theorem execKwCount_append (l : List RpcRequest) (r : RpcRequest) :
    execKwCount (l ++ [r]) =
      execKwCount l + (if isExecuteKwCall r then 1 else 0) := by
  simp only [execKwCount, List.filter_append]
  cases h : isExecuteKwCall r <;> simp [h]

theorem execute_cached (p : Preferences) (model method : String)
    (args : List JsonVal) (kwargs : Kwargs) (st : SvcState) (w : World)
    (u : JsonVal) (hu : st.uid = some u) (ht : u.truthy = true) :
    (execute p model method args kwargs st w).2.1 = st ∧
    (execute p model method args kwargs st w).2.2.sent =
      w.sent ++ [executeBody p u model method args kwargs (w.rands.headD 0)] := by
  have hA : authenticate p st w = (st.uid, st, w) :=
    authenticate_cached p st w (by rw [hu]; exact ht)
  unfold execute
  rw [hA, hu]
  rcases hf : w.fetches with _ | ⟨o, os⟩
  · rcases hr : w.rands with _ | ⟨n, ns⟩ <;>
      simp [takeRand, takeFetch, send, hr, hf, ht]
  · rcases o with ⟨ok, status, body⟩ | m
    · rcases hok : ok <;> rcases he : body.error with _ | e <;>
        rcases hr : w.rands with _ | ⟨n, ns⟩ <;>
        simp [takeRand, takeFetch, send, hr, hf, he, hok, ht]
    · rcases hr : w.rands with _ | ⟨n, ns⟩ <;>
        simp [takeRand, takeFetch, send, hr, hf, ht]

theorem isLoginCall_authBody (p : Preferences) (rid : Nat) :
    isLoginCall (authBody p rid) = true := rfl

theorem isLoginCall_executeBody (p : Preferences) (u : JsonVal)
    (model method : String) (args : List JsonVal) (kwargs : Kwargs)
    (rid : Nat) :
    isLoginCall (executeBody p u model method args kwargs rid) = false := rfl

theorem isExecuteKwCall_authBody (p : Preferences) (rid : Nat) :
    isExecuteKwCall (authBody p rid) = false := rfl

theorem authenticate_fresh_world (p : Preferences) (st : SvcState)
    (w : World) (h : uidTruthy st.uid = false) :
    (authenticate p st w).2.2.sent = w.sent ++ [authBody p (w.rands.headD 0)] ∧
    (authenticate p st w).2.2.rands = w.rands.tail ∧
    (authenticate p st w).2.2.fetches = w.fetches.tail := by
  unfold authenticate
  rw [if_neg (by rw [h]; exact Bool.false_ne_true)]
  rcases hf : w.fetches with _ | ⟨o, os⟩
  · rcases hr : w.rands with _ | ⟨n, ns⟩ <;>
      simp [takeRand, takeFetch, send, addToast, hr, hf]
  · rcases o with ⟨ok, status, body⟩ | m
    · rcases hok : ok <;> rcases he : body.error with _ | e <;>
        rcases hr : w.rands with _ | ⟨n, ns⟩ <;>
        simp [takeRand, takeFetch, send, addToast, hr, hf, he, hok]
    · rcases hr : w.rands with _ | ⟨n, ns⟩ <;>
        simp [takeRand, takeFetch, send, addToast, hr, hf]

theorem execute_loginCount_eq_auth (p : Preferences) (model method : String)
    (args : List JsonVal) (kwargs : Kwargs) (st : SvcState) (w : World) :
    loginCount (execute p model method args kwargs st w).2.2.sent =
      loginCount (authenticate p st w).2.2.sent := by
  unfold execute
  rcases hA : authenticate p st w with ⟨uid, st1, w1⟩
  dsimp only
  rcases uid with _ | u
  · rfl
  · rcases htv : u.truthy
    · simp [htv]
    · rcases hf : w1.fetches with _ | ⟨o, os⟩
      · rcases hr : w1.rands with _ | ⟨n, ns⟩ <;>
          simp [takeRand, takeFetch, send, addToast, hr, hf, htv,
            loginCount_append, isLoginCall_executeBody]
      · rcases o with ⟨ok, status, body⟩ | m
        · rcases hok : ok <;> rcases he : body.error with _ | e <;>
            rcases hr : w1.rands with _ | ⟨n, ns⟩ <;>
            simp [takeRand, takeFetch, send, addToast, hr, hf, he, hok, htv,
              loginCount_append, isLoginCall_executeBody]
        · rcases hr : w1.rands with _ | ⟨n, ns⟩ <;>
            simp [takeRand, takeFetch, send, addToast, hr, hf, htv,
              loginCount_append, isLoginCall_executeBody]

theorem execute_fresh_logins (p : Preferences) (model method : String)
    (args : List JsonVal) (kwargs : Kwargs) (st : SvcState) (w : World)
    (h : uidTruthy st.uid = false) :
    loginCount (execute p model method args kwargs st w).2.2.sent =
      loginCount w.sent + 1 := by
  rw [execute_loginCount_eq_auth,
    (authenticate_fresh_world p st w h).1, loginCount_append,
    isLoginCall_authBody]
  simp

theorem execute_cached_logins (p : Preferences) (model method : String)
    (args : List JsonVal) (kwargs : Kwargs) (st : SvcState) (w : World)
    (h : uidTruthy st.uid = true) :
    loginCount (execute p model method args kwargs st w).2.2.sent =
      loginCount w.sent := by
  rw [execute_loginCount_eq_auth, authenticate_cached p st w h]

theorem searchRead_world_sent (p : Preferences) (model : String)
    (domain : JsonVal) (options : Kwargs) (st : SvcState) (w : World) :
    (searchRead p model domain options st w).2.2.sent =
      (execute p model "search_read" [domain] options st w).2.2.sent := by
  unfold searchRead
  rcases hE : execute p model "search_read" [domain] options st w
    with ⟨r, st1, w1⟩
  dsimp only
  rcases r with m | v
  · simp [addToast]
  · rcases v with _ | x
    · rfl
    · rcases hx : x.truthy <;> simp [hx]

/-! ## Claim theorems -/

/-- C2 (minimum-length gate): when the debounce timer fires, text of
length 1 dispatches no query, length 0 dispatches the full listing
(`getAllProjects`), and length ≥ 2 dispatches the search with the current
text. -/
theorem minimum_length_gate (t : String) :
    (t.length = 1 → timerFire t = none) ∧
    (t.length = 0 → timerFire t = some Dispatch.listAllQ) ∧
    (2 ≤ t.length → timerFire t = some (Dispatch.searchQ t)) := by
  refine ⟨fun h => ?_, fun h => ?_, fun h => ?_⟩ <;> simp [timerFire, h]

/-- Witness for C2 at texts "a", "" and "ab". -/
theorem minimum_length_gate_witness :
    timerFire "a" = none ∧
    timerFire "" = some Dispatch.listAllQ ∧
    timerFire "ab" = some (Dispatch.searchQ "ab") :=
  ⟨(minimum_length_gate "a").1 rfl,
    (minimum_length_gate "").2.1 rfl,
    (minimum_length_gate "ab").2.2 (by decide)⟩

/-- C3 (debounce coalescing): if every text-change event arrives within
300 time units of the previous one, only the last event's timer can fire,
so the fired dispatches are exactly what the timer callback does for the
last event's text — in particular at most one query is dispatched, and it
uses only the last text. -/
theorem debounce_coalescing (evs : List KeyEvent) (e : KeyEvent)
    (hchain : List.Chain' withinDebounce evs)
    (hlast : evs.getLast? = some e) :
    firedDispatches evs = (timerFire e.text).toList ∧
      (firedDispatches evs).length ≤ 1 := by
  suffices h : firedDispatches evs = (timerFire e.text).toList by
    refine ⟨h, ?_⟩
    rw [h]
    rcases timerFire e.text <;> simp
  induction evs with
  | nil => simp at hlast
  | cons a tl ih =>
    rcases tl with _ | ⟨b, tl2⟩
    · simp only [List.getLast?_singleton, Option.some.injEq] at hlast
      rw [← hlast]
      rfl
    · rw [List.chain'_cons] at hchain
      have hcancel : ¬ a.time + 300 < b.time := by
        have := hchain.1
        unfold withinDebounce at this
        omega
      have hlast2 : (b :: tl2).getLast? = some e := by
        rw [← hlast]
        rfl
      have := ih hchain.2 hlast2
      unfold firedDispatches
      rw [if_neg hcancel]
      simpa using this

/-- Witness for C3: two keystrokes 100 time units apart produce exactly
the dispatch for the second text. -/
theorem debounce_coalescing_witness :
    List.Chain' withinDebounce [⟨0, "w"⟩, ⟨100, "we"⟩] ∧
    ([⟨0, "w"⟩, ⟨100, "we"⟩] : List KeyEvent).getLast? = some ⟨100, "we"⟩ ∧
    (firedDispatches [⟨0, "w"⟩, ⟨100, "we"⟩] =
        (timerFire (KeyEvent.mk 100 "we").text).toList ∧
      (firedDispatches [⟨0, "w"⟩, ⟨100, "we"⟩]).length ≤ 1) :=
  ⟨by simp [List.chain'_cons, withinDebounce], rfl,
    debounce_coalescing [⟨0, "w"⟩, ⟨100, "we"⟩] ⟨100, "we"⟩
      (by simp [List.chain'_cons, withinDebounce]) rfl⟩

/-- C1 (session reuse): with the session cache populated, `authenticate`
returns the cached uid without touching the transport; any two
consecutive `execute` calls (each with its own model, method, arguments
and options) issue zero new login calls; and after `invalidateAuth` the
next `execute` call — again arbitrary — issues exactly one fresh login
call. -/
theorem session_reuse (p : Preferences) (model1 method1 : String)
    (args1 : List JsonVal) (kwargs1 : Kwargs) (model2 method2 : String)
    (args2 : List JsonVal) (kwargs2 : Kwargs) (model3 method3 : String)
    (args3 : List JsonVal) (kwargs3 : Kwargs) (st : SvcState) (w : World)
    (h : uidTruthy st.uid = true) :
    authenticate p st w = (st.uid, st, w) ∧
    loginCount
      (execute p model2 method2 args2 kwargs2
        (execute p model1 method1 args1 kwargs1 st w).2.1
        (execute p model1 method1 args1 kwargs1 st w).2.2).2.2.sent =
      loginCount w.sent ∧
    loginCount
      (execute p model3 method3 args3 kwargs3
        (invalidateAuth
          (execute p model2 method2 args2 kwargs2
            (execute p model1 method1 args1 kwargs1 st w).2.1
            (execute p model1 method1 args1 kwargs1 st w).2.2).2.1)
        (execute p model2 method2 args2 kwargs2
          (execute p model1 method1 args1 kwargs1 st w).2.1
          (execute p model1 method1 args1 kwargs1 st w).2.2).2.2).2.2.sent =
      loginCount w.sent + 1 := by
  have hu' : ∃ u, st.uid = some u ∧ u.truthy = true := by
    rcases hs : st.uid with _ | u
    · rw [hs] at h
      simp [uidTruthy] at h
    · exact ⟨u, rfl, by rw [hs] at h; exact h⟩
  rcases hu' with ⟨u, hu, ht⟩
  have h1 := execute_cached p model1 method1 args1 kwargs1 st w u hu ht
  have hst1 : (execute p model1 method1 args1 kwargs1 st w).2.1 = st :=
    h1.1
  have hl1 := execute_cached_logins p model1 method1 args1 kwargs1 st w h
  have hl2 := execute_cached_logins p model2 method2 args2 kwargs2
    (execute p model1 method1 args1 kwargs1 st w).2.1
    (execute p model1 method1 args1 kwargs1 st w).2.2
    (by rw [hst1]; exact h)
  have hfresh := execute_fresh_logins p model3 method3 args3 kwargs3
    (invalidateAuth (execute p model2 method2 args2 kwargs2
        (execute p model1 method1 args1 kwargs1 st w).2.1
        (execute p model1 method1 args1 kwargs1 st w).2.2).2.1)
    (execute p model2 method2 args2 kwargs2
        (execute p model1 method1 args1 kwargs1 st w).2.1
        (execute p model1 method1 args1 kwargs1 st w).2.2).2.2
    (by simp [invalidateAuth, uidTruthy])
  exact ⟨authenticate_cached p st w h, by rw [hl2, hl1],
    by rw [hfresh, hl2, hl1]⟩

/-- Concrete preferences used by witnesses and counterexamples. -/
def prefs0 : Preferences := ⟨"https://example.odoo.com", "k", "acme", "api"⟩

/-- A service state whose session cache holds uid 7. -/
def cachedSt : SvcState := ⟨some (.jnum 7)⟩

/-- A successful empty `search_read` response body. -/
def okBody : OdooResp := ⟨some (.jarr []), none⟩

/-- A small concrete options record. -/
def kw0 : Kwargs := ⟨["id"], none, none⟩

/-- A concrete run environment for the C1 witness: three successful
`execute_kw` responses and one successful login response. -/
def w1c : World :=
  ⟨[.response true 200 okBody, .response true 200 okBody,
    .response true 200 ⟨some (.jnum 7), none⟩, .response true 200 okBody],
   [1, 2, 3, 4], [], []⟩

/-- The `execute_kw` arguments of the `searchByName`-backed call in the
spec's P5 scenario: the ilike predicate positionally and the merged
options mapping. -/
def searchArgs1 : List JsonVal := [searchDomain "web"]

/-- The kwargs of that `searchByName`-backed call. -/
def searchKw1 : Kwargs := ⟨["id"], none, some (searchDomain "web")⟩

/-- The kwargs of the following `getAll`-backed call. -/
def listAllKw : Kwargs := ⟨["id"], some 100, none⟩

/-- Witness for C1 at the spec's scenario: a `search_read` search
followed by a different `listAll`-shaped call, then after invalidation a
fresh search. -/
theorem session_reuse_witness :
    uidTruthy cachedSt.uid = true ∧
    (authenticate prefs0 cachedSt w1c = (cachedSt.uid, cachedSt, w1c) ∧
      loginCount
        (execute prefs0 "project.project" "search_read"
          [JsonVal.jarr []] listAllKw
          (execute prefs0 "project.project" "search_read"
            searchArgs1 searchKw1 cachedSt w1c).2.1
          (execute prefs0 "project.project" "search_read"
            searchArgs1 searchKw1 cachedSt w1c).2.2).2.2.sent =
        loginCount w1c.sent ∧
      loginCount
        (execute prefs0 "helpdesk.team" "search_read" searchArgs1 searchKw1
          (invalidateAuth
            (execute prefs0 "project.project" "search_read"
              [JsonVal.jarr []] listAllKw
              (execute prefs0 "project.project" "search_read"
                searchArgs1 searchKw1 cachedSt w1c).2.1
              (execute prefs0 "project.project" "search_read"
                searchArgs1 searchKw1 cachedSt w1c).2.2).2.1)
          (execute prefs0 "project.project" "search_read"
            [JsonVal.jarr []] listAllKw
            (execute prefs0 "project.project" "search_read"
              searchArgs1 searchKw1 cachedSt w1c).2.1
            (execute prefs0 "project.project" "search_read"
              searchArgs1 searchKw1 cachedSt w1c).2.2).2.2).2.2.sent =
        loginCount w1c.sent + 1) :=
  ⟨rfl, session_reuse prefs0 "project.project" "search_read"
    searchArgs1 searchKw1 "project.project" "search_read"
    [JsonVal.jarr []] listAllKw "helpdesk.team" "search_read"
    searchArgs1 searchKw1 cachedSt w1c rfl⟩

/-- A login fetch outcome the code treats as a failure: a rejected fetch,
a non-ok HTTP status, or an `error` envelope in the body. -/
def loginOutcomeFails : FetchOutcome → Bool
  | .response ok _ body => !ok || body.error.isSome
  | .reject _ => true

theorem authenticate_fail (p : Preferences) (st : SvcState) (w : World)
    (o : FetchOutcome) (rest : List FetchOutcome)
    (hu : uidTruthy st.uid = false) (hf : w.fetches = o :: rest)
    (he : loginOutcomeFails o = true) :
    (authenticate p st w).1 = none ∧ (authenticate p st w).2.1 = st := by
  unfold authenticate
  rw [if_neg (by rw [hu]; exact Bool.false_ne_true)]
  rcases o with ⟨ok, status, body⟩ | m
  · rcases hok : ok
    · rcases hr : w.rands with _ | ⟨n, ns⟩ <;>
        simp [takeRand, takeFetch, send, addToast, hr, hf, hok]
    · rcases hbe : body.error with _ | e
      · simp [loginOutcomeFails, hok, hbe] at he
      · rcases hr : w.rands with _ | ⟨n, ns⟩ <;>
          simp [takeRand, takeFetch, send, addToast, hr, hf, hok, hbe]
  · rcases hr : w.rands with _ | ⟨n, ns⟩ <;>
      simp [takeRand, takeFetch, send, addToast, hr, hf]

theorem execute_authFalsy (p : Preferences) (model method : String)
    (args : List JsonVal) (kwargs : Kwargs) (st : SvcState) (w : World)
    (h1 : (authenticate p st w).1 = none) :
    execute p model method args kwargs st w =
      (Except.ok none, (authenticate p st w).2.1,
        (authenticate p st w).2.2) := by
  unfold execute
  rcases hA : authenticate p st w with ⟨uid, st1, w1⟩
  rw [hA] at h1
  dsimp only at h1 ⊢
  subst h1
  rfl

/-- C5 (failed-login atomicity and short-circuit): when the session cache
is unset and the login call fails (error envelope or transport failure),
`authenticate` yields no session, the cache stays as it was, and `execute`
returns the absent value after issuing only the login request — no
`execute_kw` request is issued. -/
theorem failed_login_atomicity (p : Preferences) (model method : String)
    (args : List JsonVal) (kwargs : Kwargs) (st : SvcState) (w : World)
    (o : FetchOutcome) (rest : List FetchOutcome)
    (hu : uidTruthy st.uid = false)
    (hf : w.fetches = o :: rest)
    (he : loginOutcomeFails o = true) :
    (authenticate p st w).1 = none ∧
    (execute p model method args kwargs st w).1 = Except.ok none ∧
    (execute p model method args kwargs st w).2.1 = st ∧
    (execute p model method args kwargs st w).2.2.sent =
      w.sent ++ [authBody p (w.rands.headD 0)] ∧
    execKwCount (execute p model method args kwargs st w).2.2.sent =
      execKwCount w.sent := by
  have hfail := authenticate_fail p st w o rest hu hf he
  have hworld := authenticate_fresh_world p st w hu
  have hexec := execute_authFalsy p model method args kwargs st w hfail.1
  refine ⟨hfail.1, ?_, ?_, ?_, ?_⟩
  · rw [hexec]
  · rw [hexec]
    exact hfail.2
  · rw [hexec]
    exact hworld.1
  · rw [hexec]
    show execKwCount (authenticate p st w).2.2.sent = execKwCount w.sent
    rw [hworld.1, execKwCount_append, isExecuteKwCall_authBody]
    simp

/-- A service state with an unset session cache. -/
def emptySt : SvcState := ⟨none⟩

/-- The login failure outcome of the spec scenario:
`{error: {message: "Invalid credentials"}}` on HTTP 200. -/
def invalidCredsOutcome : FetchOutcome :=
  .response true 200 ⟨none, some ⟨"Invalid credentials", none⟩⟩

/-- A concrete run environment for the C5 witness. -/
def w5c : World := ⟨[invalidCredsOutcome], [9], [], []⟩

/-- Witness for C5 at the spec's "Invalid credentials" scenario. -/
theorem failed_login_atomicity_witness :
    uidTruthy emptySt.uid = false ∧
    w5c.fetches = invalidCredsOutcome :: [] ∧
    loginOutcomeFails invalidCredsOutcome = true ∧
    ((authenticate prefs0 emptySt w5c).1 = none ∧
      (execute prefs0 "project.project" "search_read" [] kw0
        emptySt w5c).1 = Except.ok none ∧
      (execute prefs0 "project.project" "search_read" [] kw0
        emptySt w5c).2.1 = emptySt ∧
      (execute prefs0 "project.project" "search_read" [] kw0
        emptySt w5c).2.2.sent =
        w5c.sent ++ [authBody prefs0 (w5c.rands.headD 0)] ∧
      execKwCount (execute prefs0 "project.project" "search_read" [] kw0
        emptySt w5c).2.2.sent = execKwCount w5c.sent) :=
  ⟨rfl, rfl, rfl,
    failed_login_atomicity prefs0 "project.project" "search_read" [] kw0
      emptySt w5c invalidCredsOutcome [] rfl rfl rfl⟩

theorem execute_http_error (p : Preferences) (model method : String)
    (args : List JsonVal) (kwargs : Kwargs) (st : SvcState) (w : World)
    (u : JsonVal) (status : Nat) (body : OdooResp) (rest : List FetchOutcome)
    (hu : (authenticate p st w).1 = some u) (ht : u.truthy = true)
    (hf : (authenticate p st w).2.2.fetches =
      FetchOutcome.response false status body :: rest) :
    execute p model method args kwargs st w =
      (Except.error (some (httpErrorMsg status)),
        (authenticate p st w).2.1,
        { fetches := rest,
          rands := (authenticate p st w).2.2.rands.tail,
          sent := (authenticate p st w).2.2.sent ++
            [executeBody p u model method args kwargs
              ((authenticate p st w).2.2.rands.headD 0)],
          toasts := (authenticate p st w).2.2.toasts }) := by
  unfold execute
  rcases hA : authenticate p st w with ⟨uid, st1, w1⟩
  rw [hA] at hu hf
  dsimp only at hu hf ⊢
  subst hu
  rcases hr : w1.rands with _ | ⟨n, ns⟩ <;>
    simp [takeRand, takeFetch, send, hr, hf, ht]

/-- C4 (error degradation): when `searchByName`'s underlying `search_read`
HTTP response has a non-success status, the call returns the empty
sequence rather than propagating the thrown failure, and a "Search Error"
failure notification carrying the HTTP-error message is recorded. -/
theorem error_degradation (p : Preferences) (model query : String)
    (o : SearchOptions) (st : SvcState) (w : World) (u : JsonVal)
    (status : Nat) (body : OdooResp) (rest : List FetchOutcome)
    (hu : (authenticate p st w).1 = some u) (ht : u.truthy = true)
    (hf : (authenticate p st w).2.2.fetches =
      FetchOutcome.response false status body :: rest) :
    (searchByName p model query o st w).1 = JsonVal.jarr [] ∧
    (searchByName p model query o st w).2.2.toasts =
      (authenticate p st w).2.2.toasts ++
        [⟨"Search Error", httpErrorMsg status⟩] := by
  have hexec := execute_http_error p model "search_read" [searchDomain query]
    ⟨o.fields, o.limit, some (searchDomain query)⟩ st w u status body rest
    hu ht hf
  unfold searchByName searchRead
  simp only [hexec, addToast]
  simp

/-- An empty decoded response body. -/
def emptyBody : OdooResp := ⟨none, none⟩

/-- A concrete run environment for the C4 witness: the (cached-session)
search fetch answers HTTP 500. -/
def w4c : World := ⟨[.response false 500 emptyBody], [2], [], []⟩

/-- Witness for C4: cached session, search response HTTP 500. -/
theorem error_degradation_witness :
    (authenticate prefs0 cachedSt w4c).1 = some (.jnum 7) ∧
    JsonVal.truthy (.jnum 7) = true ∧
    (authenticate prefs0 cachedSt w4c).2.2.fetches =
      FetchOutcome.response false 500 emptyBody :: [] ∧
    ((searchByName prefs0 "project.project" "web" ⟨["id"], none⟩
        cachedSt w4c).1 = JsonVal.jarr [] ∧
      (searchByName prefs0 "project.project" "web" ⟨["id"], none⟩
        cachedSt w4c).2.2.toasts =
        (authenticate prefs0 cachedSt w4c).2.2.toasts ++
          [⟨"Search Error", httpErrorMsg 500⟩]) :=
  ⟨rfl, rfl, rfl,
    error_degradation prefs0 "project.project" "web" ⟨["id"], none⟩
      cachedSt w4c (.jnum 7) 500 emptyBody [] rfl rfl rfl⟩

/-- How `execute` turns its fetch outcome into a result: the
`!response.ok` check, then the `data.error` check, then
`data.result || null`. -/
def execOutcomeResult (o : FetchOutcome) :
    Except (Option String) (Option JsonVal) :=
  match o with
  | .reject m => .error m
  | .response ok status body =>
      if ok then
        match body.error with
        | some e => .error (some (errMsg e))
        | none => .ok (jsOrNull body.result)
      else .error (some (httpErrorMsg status))

theorem execute_auth_outcome (p : Preferences) (model method : String)
    (args : List JsonVal) (kwargs : Kwargs) (st : SvcState) (w : World)
    (u : JsonVal) (o : FetchOutcome) (rest : List FetchOutcome)
    (hu : (authenticate p st w).1 = some u) (ht : u.truthy = true)
    (hf : (authenticate p st w).2.2.fetches = o :: rest) :
    execute p model method args kwargs st w =
      (execOutcomeResult o, (authenticate p st w).2.1,
        { fetches := rest,
          rands := (authenticate p st w).2.2.rands.tail,
          sent := (authenticate p st w).2.2.sent ++
            [executeBody p u model method args kwargs
              ((authenticate p st w).2.2.rands.headD 0)],
          toasts := (authenticate p st w).2.2.toasts }) := by
  unfold execute
  rcases hA : authenticate p st w with ⟨uid, st1, w1⟩
  rw [hA] at hu hf
  dsimp only at hu hf ⊢
  subst hu
  rcases o with ⟨ok, status, body⟩ | m
  · rcases hok : ok <;> rcases he : body.error with _ | e <;>
      rcases hr : w1.rands with _ | ⟨n, ns⟩ <;>
      simp [takeRand, takeFetch, send, hr, hf, he, hok, ht, execOutcomeResult]
  · rcases hr : w1.rands with _ | ⟨n, ns⟩ <;>
      simp [takeRand, takeFetch, send, hr, hf, ht, execOutcomeResult]

theorem execute_cached_rands (p : Preferences) (model method : String)
    (args : List JsonVal) (kwargs : Kwargs) (st : SvcState) (w : World)
    (u : JsonVal) (hu : st.uid = some u) (ht : u.truthy = true) :
    (execute p model method args kwargs st w).2.2.rands = w.rands.tail := by
  have hA : authenticate p st w = (st.uid, st, w) :=
    authenticate_cached p st w (by rw [hu]; exact ht)
  unfold execute
  rw [hA, hu]
  rcases hf : w.fetches with _ | ⟨o, os⟩
  · rcases hr : w.rands with _ | ⟨n, ns⟩ <;>
      simp [takeRand, takeFetch, send, hr, hf, ht]
  · rcases o with ⟨ok, status, body⟩ | m
    · rcases hok : ok <;> rcases he : body.error with _ | e <;>
        rcases hr : w.rands with _ | ⟨n, ns⟩ <;>
        simp [takeRand, takeFetch, send, hr, hf, he, hok, ht]
    · rcases hr : w.rands with _ | ⟨n, ns⟩ <;>
        simp [takeRand, takeFetch, send, hr, hf, ht]

/-- A concrete run environment with one successful search response. -/
def w6c : World := ⟨[.response true 200 okBody], [1], [], []⟩

/-- C6 as stated is false at a concrete input: the options mapping of the
issued `execute_kw` request is not the projection-only `{fields}` —
`searchByName` spreads the caller options and merges the predicate into
them (`{ ...options, domain }`), so the request kwargs carry the predicate
under the `domain` key as well as positionally. -/
theorem searchByName_options_counterexample :
    (searchByName prefs0 "project.project" "web" ⟨["id"], none⟩
        cachedSt w6c).2.2.sent =
      [executeBody prefs0 (.jnum 7) "project.project" "search_read"
        [searchDomain "web"]
        ⟨["id"], none, some (searchDomain "web")⟩ 1] ∧
    (executeBody prefs0 (.jnum 7) "project.project" "search_read"
        [searchDomain "web"]
        ⟨["id"], none, some (searchDomain "web")⟩ 1).args ≠
      RpcArgs.executeArgs prefs0.database (.jnum 7) prefs0.apiKey
        "project.project" "search_read" [searchDomain "web"]
        ⟨["id"], none, none⟩ := by
  refine ⟨rfl, ?_⟩
  simp [executeBody]

/-- C6 (amended): for every model, text and caller options, under a
successful session and a successful `search_read` response, `searchByName`
builds the predicate `OR(name ilike text, display_name ilike text)` and
issues a single `execute_kw` request with method `search_read`, positional
arguments `[predicate]`, and an options mapping equal to the caller
options with the predicate merged in under the `domain` key
(`{ ...options, domain }`), returning the resulting record sequence. -/
theorem searchByName_shape (p : Preferences) (model query : String)
    (o : SearchOptions) (st : SvcState) (w : World) (u : JsonVal)
    (status : Nat) (res : JsonVal) (rest : List FetchOutcome)
    (hu : (authenticate p st w).1 = some u) (ht : u.truthy = true)
    (hf : (authenticate p st w).2.2.fetches =
      FetchOutcome.response true status ⟨some res, none⟩ :: rest)
    (hres : res.truthy = true) :
    (searchByName p model query o st w).2.2.sent =
      (authenticate p st w).2.2.sent ++
        [executeBody p u model "search_read" [searchDomain query]
          ⟨o.fields, o.limit, some (searchDomain query)⟩
          ((authenticate p st w).2.2.rands.headD 0)] ∧
    (searchByName p model query o st w).1 = res := by
  have hexec := execute_auth_outcome p model "search_read"
    [searchDomain query] ⟨o.fields, o.limit, some (searchDomain query)⟩
    st w u (FetchOutcome.response true status ⟨some res, none⟩) rest hu ht hf
  unfold searchByName searchRead
  simp only [hexec]
  simp [execOutcomeResult, jsOrNull, hres]

/-- Witness for the amended C6 at a concrete successful search. -/
theorem searchByName_shape_witness :
    (authenticate prefs0 cachedSt w6c).1 = some (.jnum 7) ∧
    JsonVal.truthy (.jnum 7) = true ∧
    (authenticate prefs0 cachedSt w6c).2.2.fetches =
      FetchOutcome.response true 200 ⟨some (.jarr []), none⟩ :: [] ∧
    JsonVal.truthy (.jarr []) = true ∧
    ((searchByName prefs0 "project.project" "web" ⟨["id"], none⟩
        cachedSt w6c).2.2.sent =
      (authenticate prefs0 cachedSt w6c).2.2.sent ++
        [executeBody prefs0 (.jnum 7) "project.project" "search_read"
          [searchDomain "web"]
          ⟨["id"], none, some (searchDomain "web")⟩
          ((authenticate prefs0 cachedSt w6c).2.2.rands.headD 0)] ∧
      (searchByName prefs0 "project.project" "web" ⟨["id"], none⟩
        cachedSt w6c).1 = JsonVal.jarr []) :=
  ⟨rfl, rfl, rfl, rfl,
    searchByName_shape prefs0 "project.project" "web" ⟨["id"], none⟩
      cachedSt w6c (.jnum 7) 200 (.jarr []) [] rfl rfl rfl rfl⟩

/-- C7 (listAll shape and default cap): `getAll` issues the same
`search_read` request path with the empty predicate `[]` positionally and
options `{fields, limit}`, the limit defaulting to 100 when the caller
supplies none. -/
theorem getAll_shape (p : Preferences) (model : String) (o : SearchOptions)
    (st : SvcState) (w : World) (u : JsonVal)
    (hu : st.uid = some u) (ht : u.truthy = true) :
    (getAll p model o st w).2.2.sent =
      w.sent ++ [executeBody p u model "search_read" [JsonVal.jarr []]
        ⟨o.fields, some (jsNumOr o.limit 100), none⟩ (w.rands.headD 0)] ∧
    (o.limit = none → jsNumOr o.limit 100 = 100) := by
  constructor
  · have h1 := searchRead_world_sent p model (JsonVal.jarr [])
      ⟨o.fields, some (jsNumOr o.limit 100), none⟩ st w
    have h2 := (execute_cached p model "search_read" [JsonVal.jarr []]
      ⟨o.fields, some (jsNumOr o.limit 100), none⟩ st w u hu ht).2
    exact h1.trans h2
  · intro h
    simp [jsNumOr, h]

/-- Witness for C7: caller supplies no limit; the issued request carries
limit `jsNumOr none 100 = 100`. -/
theorem getAll_shape_witness :
    cachedSt.uid = some (.jnum 7) ∧
    JsonVal.truthy (.jnum 7) = true ∧
    ((getAll prefs0 "project.project" ⟨["id"], none⟩ cachedSt w6c).2.2.sent =
      w6c.sent ++ [executeBody prefs0 (.jnum 7) "project.project"
        "search_read" [JsonVal.jarr []]
        ⟨["id"], some (jsNumOr none 100), none⟩ (w6c.rands.headD 0)] ∧
      ((none : Option Int) = none → jsNumOr none 100 = 100)) :=
  ⟨rfl, rfl, getAll_shape prefs0 "project.project" ⟨["id"], none⟩
    cachedSt w6c (.jnum 7) rfl rfl⟩

/-- C10 (implicit zero-limit coercion): when the caller passes limit 0,
the dispatched `search_read` options carry limit 100, because the default
is applied through the falsy-value check `options.limit || 100`. -/
theorem getAll_zero_limit (p : Preferences) (model : String)
    (fields : List String) (st : SvcState) (w : World) (u : JsonVal)
    (hu : st.uid = some u) (ht : u.truthy = true) :
    (getAll p model ⟨fields, some 0⟩ st w).2.2.sent =
      w.sent ++ [executeBody p u model "search_read" [JsonVal.jarr []]
        ⟨fields, some 100, none⟩ (w.rands.headD 0)] := by
  have h1 := searchRead_world_sent p model (JsonVal.jarr [])
    ⟨fields, some (jsNumOr (some 0) 100), none⟩ st w
  have h2 := (execute_cached p model "search_read" [JsonVal.jarr []]
    ⟨fields, some (jsNumOr (some 0) 100), none⟩ st w u hu ht).2
  exact h1.trans h2

/-- Witness for C10: explicit limit 0 is coerced to 100 in the issued
request. -/
theorem getAll_zero_limit_witness :
    cachedSt.uid = some (.jnum 7) ∧
    JsonVal.truthy (.jnum 7) = true ∧
    (getAll prefs0 "project.project" ⟨["id"], some 0⟩ cachedSt
        w6c).2.2.sent =
      w6c.sent ++ [executeBody prefs0 (.jnum 7) "project.project"
        "search_read" [JsonVal.jarr []]
        ⟨["id"], some 100, none⟩ (w6c.rands.headD 0)] :=
  ⟨rfl, rfl, getAll_zero_limit prefs0 "project.project" ["id"]
    cachedSt w6c (.jnum 7) rfl rfl⟩

/-- A run environment whose (cached-session) search fetch answers 200
with the falsy result `0`. -/
def w8a : World := ⟨[.response true 200 ⟨some (.jnum 0), none⟩], [5], [], []⟩

/-- A run environment whose search fetch answers 200 with an error
envelope carrying a present-but-empty `data.message`. -/
def w8b : World :=
  ⟨[.response true 200 ⟨none, some ⟨"top-level", some ⟨"SubErr", ""⟩⟩⟩],
   [5], [], []⟩

/-- C8 as stated is false at two corners: with a successful response whose
`result` field is the falsy number 0, `execute` returns the absent value
(via `data.result || null`) instead of the result field; and with an error
envelope whose `data.message` is present but empty, the failure message is
the top-level message (via `data?.message || message`), not the
sub-code's. -/
theorem transport_error_counterexample :
    ((execute prefs0 "res.users" "read" [] kw0 cachedSt w8a).1 =
        Except.ok none ∧
      (Except.ok none :
          Except (Option String) (Option JsonVal)) ≠
        Except.ok (some (JsonVal.jnum 0))) ∧
    ((execute prefs0 "res.users" "read" [] kw0 cachedSt w8b).1 =
        Except.error (some "top-level") ∧
      (Except.error (some "top-level") :
          Except (Option String) (Option JsonVal)) ≠
        Except.error (some "")) :=
  ⟨⟨rfl, fun h => Option.noConfusion (Except.ok.inj h)⟩,
    ⟨rfl, fun h =>
      absurd (Option.some.inj (Except.error.inj h)) (by decide)⟩⟩

/-- C8 (amended): on a non-success HTTP status the call fails with the
`HTTP error! status` message carrying that status, and the response body
is not consulted (any two bodies give identical outcomes); on a successful
status with an `error` envelope it fails with `data?.message || message`
(the sub-code's message when present and non-empty, else the top-level
message); with no `error` field it returns `data.result || null` (the
result field when truthy, else the absent value). -/
theorem transport_error_discrimination (p : Preferences)
    (model method : String) (args : List JsonVal) (kwargs : Kwargs)
    (st : SvcState) (w : World) (u : JsonVal) (status : Nat)
    (rest : List FetchOutcome)
    (hu : st.uid = some u) (ht : u.truthy = true) :
    (∀ b1 b2 : OdooResp,
      (execute p model method args kwargs st
        { w with fetches :=
            FetchOutcome.response false status b1 :: rest }).1 =
        Except.error (some (httpErrorMsg status)) ∧
      execute p model method args kwargs st
          { w with fetches :=
              FetchOutcome.response false status b1 :: rest } =
        execute p model method args kwargs st
          { w with fetches :=
              FetchOutcome.response false status b2 :: rest }) ∧
    (∀ (r : Option JsonVal) (e : OdooErr),
      (execute p model method args kwargs st
        { w with fetches :=
            FetchOutcome.response true status ⟨r, some e⟩ :: rest }).1 =
        Except.error (some (errMsg e))) ∧
    (∀ r : Option JsonVal,
      (execute p model method args kwargs st
        { w with fetches :=
            FetchOutcome.response true status ⟨r, none⟩ :: rest }).1 =
        Except.ok (jsOrNull r)) := by
  have htr : uidTruthy st.uid = true := by rw [hu]; exact ht
  refine ⟨fun b1 b2 => ?_, fun r e => ?_, fun r => ?_⟩
  · have h1 := execute_auth_outcome p model method args kwargs st
      { w with fetches := FetchOutcome.response false status b1 :: rest } u
      (FetchOutcome.response false status b1) rest
      (by rw [authenticate_cached _ _ _ htr]; exact hu) ht
      (by rw [authenticate_cached _ _ _ htr])
    have h2 := execute_auth_outcome p model method args kwargs st
      { w with fetches := FetchOutcome.response false status b2 :: rest } u
      (FetchOutcome.response false status b2) rest
      (by rw [authenticate_cached _ _ _ htr]; exact hu) ht
      (by rw [authenticate_cached _ _ _ htr])
    rw [h1, h2, authenticate_cached p st
        { w with fetches := FetchOutcome.response false status b1 :: rest }
        htr,
      authenticate_cached p st
        { w with fetches := FetchOutcome.response false status b2 :: rest }
        htr]
    simp [execOutcomeResult]
  · have h1 := execute_auth_outcome p model method args kwargs st
      { w with fetches :=
          FetchOutcome.response true status ⟨r, some e⟩ :: rest } u
      (FetchOutcome.response true status ⟨r, some e⟩) rest
      (by rw [authenticate_cached _ _ _ htr]; exact hu) ht
      (by rw [authenticate_cached _ _ _ htr])
    rw [h1]
    simp [execOutcomeResult]
  · have h1 := execute_auth_outcome p model method args kwargs st
      { w with fetches :=
          FetchOutcome.response true status ⟨r, none⟩ :: rest } u
      (FetchOutcome.response true status ⟨r, none⟩) rest
      (by rw [authenticate_cached _ _ _ htr]; exact hu) ht
      (by rw [authenticate_cached _ _ _ htr])
    rw [h1]
    simp [execOutcomeResult]

/-- An empty run environment with one pending random draw. -/
def w0 : World := ⟨[], [5], [], []⟩

/-- Witness for the amended C8 at concrete statuses and bodies. -/
theorem transport_error_discrimination_witness :
    cachedSt.uid = some (.jnum 7) ∧
    JsonVal.truthy (.jnum 7) = true ∧
    ((execute prefs0 "res.users" "read" [] kw0 cachedSt
        { w0 with fetches :=
            FetchOutcome.response false 500 emptyBody :: [] }).1 =
      Except.error (some (httpErrorMsg 500)) ∧
      execute prefs0 "res.users" "read" [] kw0 cachedSt
          { w0 with fetches :=
              FetchOutcome.response false 500 emptyBody :: [] } =
        execute prefs0 "res.users" "read" [] kw0 cachedSt
          { w0 with fetches :=
              FetchOutcome.response false 500 okBody :: [] }) ∧
    (execute prefs0 "res.users" "read" [] kw0 cachedSt
        { w0 with fetches :=
            FetchOutcome.response true 500 ⟨none, some ⟨"boom", none⟩⟩ ::
              [] }).1 =
      Except.error (some (errMsg ⟨"boom", none⟩)) ∧
    (execute prefs0 "res.users" "read" [] kw0 cachedSt
        { w0 with fetches :=
            FetchOutcome.response true 500 ⟨some (.jarr []), none⟩ ::
              [] }).1 =
      Except.ok (jsOrNull (some (.jarr []))) :=
  ⟨rfl, rfl,
    (transport_error_discrimination prefs0 "res.users" "read" [] kw0
      cachedSt w0 (.jnum 7) 500 [] rfl rfl).1 emptyBody okBody,
    (transport_error_discrimination prefs0 "res.users" "read" [] kw0
      cachedSt w0 (.jnum 7) 500 [] rfl rfl).2.1 none ⟨"boom", none⟩,
    (transport_error_discrimination prefs0 "res.users" "read" [] kw0
      cachedSt w0 (.jnum 7) 500 [] rfl rfl).2.2 (some (.jarr []))⟩

/-- A run environment with equal random draws 42, 42. -/
def w9c : World :=
  ⟨[.response true 200 okBody, .response true 200 okBody], [42, 42], [], []⟩

/-- C9 as stated is false: with both random draws equal to 42, two
distinct outstanding calls (to different models) are stamped with the
same correlation id 42 in their envelopes. -/
theorem correlation_id_counterexample :
    ((execute prefs0 "helpdesk.team" "search_read" [] kw0
        (execute prefs0 "project.project" "search_read" [] kw0
          cachedSt w9c).2.1
        (execute prefs0 "project.project" "search_read" [] kw0
          cachedSt w9c).2.2).2.2.sent).map RpcRequest.id = [42, 42] ∧
    ((execute prefs0 "helpdesk.team" "search_read" [] kw0
        (execute prefs0 "project.project" "search_read" [] kw0
          cachedSt w9c).2.1
        (execute prefs0 "project.project" "search_read" [] kw0
          cachedSt w9c).2.2).2.2.sent).map reqModel =
      [some "project.project", some "helpdesk.team"] :=
  ⟨rfl, rfl⟩

/-- C9 (amended): correlation ids are the successive values of the
`Math.floor(Math.random() * 1000000)` stream: two consecutive `execute`
calls with a cached session stamp the next two draws as their envelope
ids, so two calls get distinct ids exactly when their draws differ —
uniqueness is not otherwise guaranteed. -/
theorem correlation_ids_from_draws (p : Preferences)
    (model1 method1 model2 method2 : String) (args1 args2 : List JsonVal)
    (kwargs1 kwargs2 : Kwargs) (st : SvcState) (w : World) (u : JsonVal)
    (n1 n2 : Nat) (ns : List Nat)
    (hu : st.uid = some u) (ht : u.truthy = true)
    (hr : w.rands = n1 :: n2 :: ns) :
    ((execute p model2 method2 args2 kwargs2
        (execute p model1 method1 args1 kwargs1 st w).2.1
        (execute p model1 method1 args1 kwargs1 st w).2.2).2.2.sent).map
        RpcRequest.id =
      w.sent.map RpcRequest.id ++ [n1, n2] ∧
    (n1 ≠ n2 →
      (executeBody p u model1 method1 args1 kwargs1 n1).id ≠
        (executeBody p u model2 method2 args2 kwargs2 n2).id) := by
  have h1 := execute_cached p model1 method1 args1 kwargs1 st w u hu ht
  have hrands1 := execute_cached_rands p model1 method1 args1 kwargs1
    st w u hu ht
  have h2 := execute_cached p model2 method2 args2 kwargs2
    (execute p model1 method1 args1 kwargs1 st w).2.1
    (execute p model1 method1 args1 kwargs1 st w).2.2 u
    (by rw [h1.1]; exact hu) ht
  constructor
  · rw [h2.2, h1.2, hrands1, hr]
    simp [executeBody]
  · intro hne
    exact hne

/-- A run environment with distinct random draws 10, 20. -/
def w9w : World :=
  ⟨[.response true 200 okBody, .response true 200 okBody], [10, 20], [], []⟩

/-- Witness for the amended C9 at concrete draws 10 and 20. -/
theorem correlation_ids_from_draws_witness :
    cachedSt.uid = some (.jnum 7) ∧
    JsonVal.truthy (.jnum 7) = true ∧
    w9w.rands = 10 :: 20 :: [] ∧
    (((execute prefs0 "helpdesk.team" "search_read" [] kw0
        (execute prefs0 "project.project" "search_read" [] kw0
          cachedSt w9w).2.1
        (execute prefs0 "project.project" "search_read" [] kw0
          cachedSt w9w).2.2).2.2.sent).map RpcRequest.id =
      w9w.sent.map RpcRequest.id ++ [10, 20] ∧
      ((10 : Nat) ≠ 20 →
        (executeBody prefs0 (.jnum 7) "project.project" "search_read"
          [] kw0 10).id ≠
          (executeBody prefs0 (.jnum 7) "helpdesk.team" "search_read"
            [] kw0 20).id)) :=
  ⟨rfl, rfl, rfl,
    correlation_ids_from_draws prefs0 "project.project" "search_read"
      "helpdesk.team" "search_read" [] [] kw0 kw0 cachedSt w9w (.jnum 7)
      10 20 [] rfl rfl rfl⟩
